import Mathlib

/-!
Verification of the session / authenticated-request layer of the
Gift-Card-Wallet mobile client (src/services/api.ts and
src/context/AuthContext.tsx).

The JavaScript code is a set of async functions over two shared
resources: AsyncStorage (keys `token` and `refreshToken`) and the
React auth context flag `isSignedIn`.  Execution is single-threaded
and cooperative: control can switch between logical operations only
at `await` boundaries (storage calls and network calls).

We embed each async function as a value of a free-monad-like type
`Proc`, whose constructors are exactly the atomic actions between
awaits.  A single-task runner `runTask` gives the sequential meaning;
a scheduler `runPool` interleaves several tasks at their suspension
points (a network call is split into "request emitted" and "response
received", which are separate suspension points, so another task may
run while a call is in flight).
-/

/-- The two AsyncStorage keys used by the session layer
(`token` = access token, `refreshToken`). -/
inductive Key where
  | token
  | refreshToken
deriving DecidableEq, Repr

/-- The durable key-value store restricted to the two session keys. -/
structure Store where
  token : Option String
  refreshToken : Option String
deriving DecidableEq, Repr

def Store.get (s : Store) : Key → Option String
  | .token => s.token
  | .refreshToken => s.refreshToken

def Store.set (s : Store) : Key → String → Store
  | .token, v => { s with token := some v }
  | .refreshToken, v => { s with refreshToken := some v }

def Store.remove (s : Store) : Key → Store
  | .token => { s with token := none }
  | .refreshToken => { s with refreshToken := none }

/-- `authService.isAuthenticated`: a session is considered stored
exactly when the `token` key is present (`!!token`). -/
def isAuthenticatedCheck (s : Store) : Bool :=
  s.token.isSome

/-- Requests that the client sends through the `api` axios instance
(these pass through both interceptors). -/
inductive ApiReq where
  | register
  | logoutReq
  | profileGet
  | generic (n : Nat)
deriving DecidableEq, Repr

/-- A network call as seen by the transport.
`apiCall` goes through the `api` instance (request interceptor attached
the `auth` header); `refreshPost` is the bare-axios POST /auth/refresh;
`replayCall` is the bare-axios `axios(error.config)` replay (bypasses
the interceptors); `loginPost` is the bare-axios POST /auth/token. -/
inductive NetReq where
  | apiCall (r : ApiReq) (auth : Option String)
  | refreshPost (bearer : String)
  | replayCall (r : ApiReq) (auth : String)
  | loginPost (username password : String)
deriving DecidableEq, Repr

/-- A transport response: a token-pair body (login/refresh success),
a generic success, an HTTP 401, or a network failure (no response). -/
inductive NetResp where
  | tokens (access refresh : String)
  | ok
  | err401
  | netFail
deriving DecidableEq, Repr

/-- Rejection reasons observable by a caller.  `original401` is
`Promise.reject(error)` with the original 401 error (the code's
AuthExpired surface); `replayFail` is a rejection of the bare-axios
replay; `netErr` is a non-401 transport failure passed through. -/
inductive RejectReason where
  | original401
  | replayFail (r : NetResp)
  | netErr
deriving DecidableEq, Repr

/-- How one logical operation settles: its promise resolves with a
response, or rejects. -/
inductive Outcome where
  | success (r : NetResp)
  | rejected (e : RejectReason)
deriving DecidableEq, Repr

/-- In the spec's error taxonomy, `AuthExpired` covers a refresh that
is absent or failed (the code rejects with the original 401 error
there) and a second 401 received on a replayed request. -/
def Outcome.isAuthExpired : Outcome → Bool
  | .rejected .original401 => true
  | .rejected (.replayFail .err401) => true
  | _ => false

/-- One async operation, as the sequence of atomic actions between
`await`s.  `net` both emits a request and, when the task is next
scheduled, receives the response; the scheduler splits it in two so
other tasks may interleave while the call is in flight.
`setSignedIn` is the React `setIsSignedIn` state update. -/
inductive Proc (α : Type) where
  | pure (a : α)
  | getItem (k : Key) (cont : Option String → Proc α)
  | setItem (k : Key) (v : String) (cont : Proc α)
  | removeItem (k : Key) (cont : Proc α)
  | net (r : NetReq) (cont : NetResp → Proc α)
  | setSignedIn (b : Bool) (cont : Proc α)

def Proc.bind : Proc α → (α → Proc β) → Proc β
  | .pure a, f => f a
  | .getItem k cont, f => .getItem k fun o => (cont o).bind f
  | .setItem k v cont, f => .setItem k v (cont.bind f)
  | .removeItem k cont, f => .removeItem k (cont.bind f)
  | .net r cont, f => .net r fun resp => (cont resp).bind f
  | .setSignedIn b cont, f => .setSignedIn b (cont.bind f)

/-- A storage write or delete, for stating write-ordering facts. -/
inductive StoreOp where
  | setOp (k : Key) (v : String)
  | removeOp (k : Key)
deriving DecidableEq, Repr

/-- Shared mutable state: the durable store and the auth-context
`isSignedIn` flag. -/
structure Sys where
  store : Store
  signedIn : Bool
deriving DecidableEq, Repr

/-- The transport: what the environment answers to each network call. -/
abbrev Env := NetReq → NetResp

/-- Run one task to completion, sequentially.  Returns its outcome,
the final shared state, the network calls it made (in order) and the
storage writes/deletes it performed (in order). -/
def runTask (env : Env) (s : Sys) :
    Proc Outcome → Outcome × Sys × List NetReq × List StoreOp
  | .pure a => (a, s, [], [])
  | .getItem k cont => runTask env s (cont (s.store.get k))
  | .setItem k v cont =>
      let r := runTask env { s with store := s.store.set k v } cont
      (r.1, r.2.1, r.2.2.1, .setOp k v :: r.2.2.2)
  | .removeItem k cont =>
      let r := runTask env { s with store := s.store.remove k } cont
      (r.1, r.2.1, r.2.2.1, .removeOp k :: r.2.2.2)
  | .net r cont =>
      let q := runTask env s (cont (env r))
      (q.1, q.2.1, r :: q.2.2.1, q.2.2.2)
  | .setSignedIn b cont => runTask env { s with signedIn := b } cont

/-- A task in the scheduler's pool: still running, suspended on an
in-flight network call (request already emitted, response not yet
delivered), or settled. -/
inductive TaskState where
  | running (p : Proc Outcome)
  | awaiting (r : NetReq) (cont : NetResp → Proc Outcome)
  | done (o : Outcome)

/-- One atomic step of one task: returns the updated shared state, the
network request emitted by this step (if any), and the task's new
state. -/
def stepTask (env : Env) (s : Sys) :
    TaskState → Sys × Option NetReq × TaskState
  | .running (.pure a) => (s, none, .done a)
  | .running (.getItem k cont) => (s, none, .running (cont (s.store.get k)))
  | .running (.setItem k v cont) =>
      ({ s with store := s.store.set k v }, none, .running cont)
  | .running (.removeItem k cont) =>
      ({ s with store := s.store.remove k }, none, .running cont)
  | .running (.net r cont) => (s, some r, .awaiting r cont)
  | .running (.setSignedIn b cont) =>
      ({ s with signedIn := b }, none, .running cont)
  | .awaiting r cont => (s, none, .running (cont (env r)))
  | .done o => (s, none, .done o)

/-- Replace the element at index `i`. -/
def setAt : List TaskState → Nat → TaskState → List TaskState
  | [], _, _ => []
  | _ :: ts, 0, t => t :: ts
  | t0 :: ts, n + 1, t => t0 :: setAt ts n t

/-- The scheduler's trace: shared-state snapshot after every step
(newest first, seeded with the initial state) and all network calls
emitted, in order. -/
structure PoolTrace where
  sys : Sys
  tasks : List TaskState
  calls : List NetReq
  history : List Sys

/-- Run a schedule (a list of task indices): at each schedule entry
the named task performs one atomic step. -/
def runPool (env : Env) : List Nat → PoolTrace → PoolTrace
  | [], tr => tr
  | i :: rest, tr =>
      match tr.tasks.get? i with
      | none => runPool env rest tr
      | some t =>
          let (s', c, t') := stepTask env tr.sys t
          runPool env rest
            { sys := s'
              tasks := setAt tr.tasks i t'
              calls := tr.calls ++ c.toList
              history := s' :: tr.history }

def initPool (s : Sys) (ps : List (Proc Outcome)) : PoolTrace :=
  { sys := s, tasks := ps.map .running, calls := [], history := [s] }

def isRefreshCall : NetReq → Bool
  | .refreshPost _ => true
  | _ => false

def refreshCalls (t : List NetReq) : Nat :=
  (t.filter isRefreshCall).length

def isLoginCall : NetReq → Bool
  | .loginPost _ _ => true
  | _ => false

def isReplayCall : NetReq → Bool
  | .replayCall _ _ => true
  | _ => false

/-- A half-written token pair: exactly one of the two keys present. -/
def unpaired (s : Store) : Bool :=
  s.token.isSome ≠ s.refreshToken.isSome

/-- The response-interceptor error branch of `api` for a 401 response
to request `q` (src/services/api.ts lines 192-229):
read `refreshToken`; if absent, remove both keys and reject with the
original error; otherwise POST /auth/refresh with it as bearer; on a
token-pair response store `token` then `refreshToken` and replay the
original request via bare axios (returning that promise directly, so
a replay rejection is NOT caught by the catch block); if the refresh
call throws, remove both keys and reject with the original error. -/
def handle401 (q : ApiReq) : Proc Outcome :=
  .getItem .refreshToken fun rt =>
    match rt with
    | none =>
        .removeItem .token <| .removeItem .refreshToken <|
          .pure (.rejected .original401)
    | some r =>
        .net (.refreshPost r) fun resp =>
          match resp with
          | .tokens a b =>
              .setItem .token a <| .setItem .refreshToken b <|
                .net (.replayCall q ("Bearer " ++ a)) fun rr =>
                  match rr with
                  | .err401 => .pure (.rejected (.replayFail .err401))
                  | .netFail => .pure (.rejected (.replayFail .netFail))
                  | r2 => .pure (.success r2)
          | _ =>
              .removeItem .token <| .removeItem .refreshToken <|
                .pure (.rejected .original401)

/-- The bearer header the request interceptor attaches when the
`token` key is present (src/services/api.ts lines 174-185). -/
def authHeader (t : Option String) : Option String :=
  t.map (fun tok => "Bearer " ++ tok)

/-- A request sent through the `api` instance: the request interceptor
reads `token` and attaches the bearer header; the response interceptor
passes non-401 results through and sends a 401 into `handle401`. -/
def apiRequest (q : ApiReq) : Proc Outcome :=
  .getItem .token fun t =>
    .net (.apiCall q (authHeader t)) fun resp =>
      match resp with
      | .err401 => handle401 q
      | .netFail => .pure (.rejected .netErr)
      | r => .pure (.success r)

/-- `authService.login` (lines 237-253): bare-axios POST /auth/token;
on success store `token` then `refreshToken` and return the body;
on failure the rejection propagates (nothing stored). -/
def loginProc (u p : String) : Proc Outcome :=
  .net (.loginPost u p) fun resp =>
    match resp with
    | .tokens a b =>
        .setItem .token a <| .setItem .refreshToken b <|
          .pure (.success (.tokens a b))
    | .err401 => .pure (.rejected .original401)
    | _ => .pure (.rejected .netErr)

/-- `authService.logout` (lines 260-268): POST /auth/logout through
`api`; in a `finally`, remove `token` then `refreshToken`; the
outcome of the POST (success or rethrown failure) then propagates. -/
def logoutProc : Proc Outcome :=
  (apiRequest .logoutReq).bind fun o =>
    .removeItem .token <| .removeItem .refreshToken <| .pure o

/-- `AuthContext.signOut` (src/context/AuthContext.tsx lines 109-121):
await `authService.logout()`; on success clear the user and set
`isSignedIn := false`; on failure the catch logs and rethrows, so the
state updates are skipped. -/
def signOutProc : Proc Outcome :=
  logoutProc.bind fun o =>
    match o with
    | .rejected e => .pure (.rejected e)
    | .success r => .setSignedIn false (.pure (.success r))

/-- `AuthContext.signIn` (lines 81-93): await `authService.login`,
then await the profile fetch (GET /users/me through `api`), then set
`isSignedIn := true`; any failure is rethrown and later steps are
skipped. -/
def signInProc (u p : String) : Proc Outcome :=
  (loginProc u p).bind fun o =>
    match o with
    | .rejected e => .pure (.rejected e)
    | .success _ =>
        (apiRequest .profileGet).bind fun o2 =>
          match o2 with
          | .rejected e => .pure (.rejected e)
          | .success r => .setSignedIn true (.pure (.success r))

/-- `AuthContext.signUp` (lines 95-107): await
`authService.register(userData)` (through `api`), then sign in with
`userData.username` / `userData.password`; a registration failure is
rethrown and sign-in is never attempted. -/
def signUpProc (u p : String) : Proc Outcome :=
  (apiRequest .register).bind fun o =>
    match o with
    | .rejected e => .pure (.rejected e)
    | .success _ => signInProc u p

/-- Extract a settled task's outcome. -/
def taskOutcome : TaskState → Option Outcome
  | .done o => some o
  | _ => none

/-- A task suspended on an in-flight refresh call. -/
def awaitingRefresh : TaskState → Bool
  | .awaiting r _ => isRefreshCall r
  | _ => false

/-! Concrete transports used in counterexamples and witnesses. -/

def envAllOk : Env := fun _ => .ok

def envRefreshOk : Env := fun r =>
  match r with
  | .refreshPost _ => .tokens "A2" "R2"
  | _ => .ok

def envRefreshFail : Env := fun r =>
  match r with
  | .refreshPost _ => .err401
  | _ => .ok

def envReplay401 : Env := fun r =>
  match r with
  | .refreshPost _ => .tokens "A2" "R2"
  | .replayCall _ _ => .err401
  | _ => .ok

def envLoginOk : Env := fun r =>
  match r with
  | .loginPost _ _ => .tokens "A1" "R1"
  | _ => .ok

def envLogoutFail : Env := fun r =>
  match r with
  | .apiCall .logoutReq _ => .netFail
  | _ => .ok

def envProfileFail : Env := fun r =>
  match r with
  | .loginPost _ _ => .tokens "A1" "R1"
  | .apiCall .profileGet _ => .netFail
  | _ => .ok

def envRegisterFail : Env := fun r =>
  match r with
  | .apiCall .register _ => .netFail
  | _ => .ok

def envWriteOrder : Env := fun r =>
  match r with
  | .loginPost _ _ => .tokens "A1" "R1"
  | .refreshPost _ => .tokens "A2" "R2"
  | _ => .ok

def envRegister401 : Env := fun r =>
  match r with
  | .apiCall .register _ => .err401
  | .refreshPost _ => .tokens "A2" "R2"
  | _ => .ok

/-- An authenticated session whose access token the server has just
rejected: both keys stored, `isSignedIn = true`. -/
def sysAuth : Sys := ⟨⟨some "A1", some "R1"⟩, true⟩

/-- C4: if no refresh token is stored when the 401 handler runs, the
request is rejected immediately with the original 401 error
(AuthExpired) and no network call at all is made (the handler also
clears both storage keys). -/
theorem noRefreshToken_rejects_immediately (env : Env) (s : Sys) (q : ApiReq)
    (h : s.store.refreshToken = none) :
    runTask env s (handle401 q) =
      (.rejected .original401, ⟨⟨none, none⟩, s.signedIn⟩, [],
        [.removeOp .token, .removeOp .refreshToken]) := by
  simp [handle401, runTask, Store.get, Store.remove, h]

/-- Witness for C4 at a concrete state with an access token but no
refresh token. -/
theorem noRefreshToken_rejects_immediately_witness :
    runTask envAllOk ⟨⟨some "A1", none⟩, true⟩ (handle401 (.generic 0)) =
      (.rejected .original401, ⟨⟨none, none⟩, true⟩, [],
        [.removeOp .token, .removeOp .refreshToken]) :=
  noRefreshToken_rejects_immediately envAllOk ⟨⟨some "A1", none⟩, true⟩ (.generic 0) rfl

/-- C6: a 401 on the replayed request does not start another refresh
cycle: the replay goes through bare axios (no interceptors), so the
whole handling of the original 401 performs exactly one refresh call
and the replay's 401 is surfaced to the caller (AuthExpired in the
spec's taxonomy).  Retries are thus bounded to one per original
request. -/
theorem replay401_no_second_refresh (env : Env) (s : Sys) (q : ApiReq)
    (r a b : String)
    (h1 : s.store.refreshToken = some r)
    (h2 : env (.refreshPost r) = .tokens a b)
    (h3 : env (.replayCall q ("Bearer " ++ a)) = .err401) :
    runTask env s (handle401 q) =
      (.rejected (.replayFail .err401), ⟨⟨some a, some b⟩, s.signedIn⟩,
        [.refreshPost r, .replayCall q ("Bearer " ++ a)],
        [.setOp .token a, .setOp .refreshToken b]) ∧
    refreshCalls (runTask env s (handle401 q)).2.2.1 = 1 ∧
    (runTask env s (handle401 q)).1.isAuthExpired = true := by
  have he : runTask env s (handle401 q) =
      (.rejected (.replayFail .err401), ⟨⟨some a, some b⟩, s.signedIn⟩,
        [.refreshPost r, .replayCall q ("Bearer " ++ a)],
        [.setOp .token a, .setOp .refreshToken b]) := by
    simp [handle401, runTask, Store.get, Store.set, h1, h2, h3]
  refine ⟨he, ?_, ?_⟩ <;> rw [he]
  · simp [refreshCalls, isRefreshCall]
  · rfl

/-- Witness for C6: concrete replayed 401 after a successful refresh. -/
theorem replay401_no_second_refresh_witness :
    runTask envReplay401 sysAuth (handle401 (.generic 0)) =
      (.rejected (.replayFail .err401), ⟨⟨some "A2", some "R2"⟩, true⟩,
        [.refreshPost "R1", .replayCall (.generic 0) ("Bearer " ++ "A2")],
        [.setOp .token "A2", .setOp .refreshToken "R2"]) ∧
    refreshCalls (runTask envReplay401 sysAuth (handle401 (.generic 0))).2.2.1 = 1 ∧
    (runTask envReplay401 sysAuth (handle401 (.generic 0))).1.isAuthExpired = true :=
  replay401_no_second_refresh envReplay401 sysAuth (.generic 0) "R1" "A2" "R2"
    rfl rfl rfl

/-- C2 is refuted on its session-state conjunct: when the refresh call
itself returns 401, the interceptor clears both storage keys and
rejects the request, but it never touches the auth-context flag — from
`isSignedIn = true` the run ends with `isSignedIn` still `true`, not
Unauthenticated (the code only remarks "Here you might want to
redirect to login"). -/
theorem refreshFailure_sessionState_counterexample :
    (runTask envRefreshFail sysAuth (handle401 (.generic 0))).1 =
      .rejected .original401 ∧
    (runTask envRefreshFail sysAuth (handle401 (.generic 0))).2.1.store =
      ⟨none, none⟩ ∧
    (runTask envRefreshFail sysAuth (handle401 (.generic 0))).2.1.signedIn =
      true := by
  decide

/-- C2 amended: when the refresh attempt settles with failure (the
refresh call returns 401 or a network error), the token store is
cleared, the waiting request is rejected with the original 401 error
(AuthExpired) and is not replayed (no replay call in the trace) — but
the session flag is left unchanged; the interceptor performs no
session-state transition. -/
theorem refreshFailure_clears_and_rejects (env : Env) (s : Sys) (q : ApiReq)
    (r : String)
    (h1 : s.store.refreshToken = some r)
    (h2 : env (.refreshPost r) = .err401 ∨ env (.refreshPost r) = .netFail) :
    runTask env s (handle401 q) =
      (.rejected .original401, ⟨⟨none, none⟩, s.signedIn⟩, [.refreshPost r],
        [.removeOp .token, .removeOp .refreshToken]) := by
  rcases h2 with h2 | h2 <;>
    simp [handle401, runTask, Store.get, Store.remove, h1, h2]

/-- Witness for amended C2 at a concrete authenticated state. -/
theorem refreshFailure_clears_and_rejects_witness :
    runTask envRefreshFail sysAuth (handle401 (.generic 0)) =
      (.rejected .original401, ⟨⟨none, none⟩, true⟩, [.refreshPost "R1"],
        [.removeOp .token, .removeOp .refreshToken]) :=
  refreshFailure_clears_and_rejects envRefreshFail sysAuth (.generic 0) "R1"
    rfl (Or.inl rfl)

/-- Pool of two authenticated requests that have both just received a
401 (the two instances of the response-interceptor error branch). -/
def twoTaskPool : PoolTrace :=
  initPool sysAuth [handle401 (.generic 0), handle401 (.generic 1)]

/-- A schedule in which both handlers read the refresh token and issue
their refresh calls before either refresh completes, then each runs to
completion. -/
def twoRefreshSched : List Nat :=
  [0, 0, 1, 1, 0, 0, 0, 0, 0, 0, 1, 1, 1, 1, 1, 1]

/-- C1 is refuted: with two concurrent requests that each receive a
401 before any refresh completes (after the schedule prefix both tasks
are suspended on an in-flight refresh call and two refresh calls are
already on the wire), the layer performs two refresh network calls,
not exactly one — there is no PendingRefresh coalescing in the code. -/
theorem concurrent401_two_refreshes_counterexample :
    (runPool envRefreshOk [0, 0, 1, 1] twoTaskPool).tasks.all awaitingRefresh
      = true ∧
    refreshCalls (runPool envRefreshOk [0, 0, 1, 1] twoTaskPool).calls = 2 ∧
    refreshCalls (runPool envRefreshOk twoRefreshSched twoTaskPool).calls
      = 2 ∧
    (runPool envRefreshOk twoRefreshSched twoTaskPool).tasks.map taskOutcome
      = [some (.success .ok), some (.success .ok)] := by
  decide

/-- C1 amended: there is no refresh coalescing — each request that
receives a 401 performs its own refresh call (two concurrent 401s
yield two refresh calls), and each request individually is either
replayed after its own refresh succeeds or fails with the original
401 error (AuthExpired) when its refresh fails, with exactly one
refresh call per request in both cases. -/
theorem per_request_refresh (envS envF : Env) (s : Sys) (q : ApiReq)
    (r a b : String)
    (h : s.store.refreshToken = some r)
    (hS : envS (.refreshPost r) = .tokens a b)
    (hSr : envS (.replayCall q ("Bearer " ++ a)) = .ok)
    (hF : envF (.refreshPost r) = .err401) :
    (refreshCalls (runTask envS s (handle401 q)).2.2.1 = 1 ∧
      (runTask envS s (handle401 q)).1 = .success .ok) ∧
    (refreshCalls (runTask envF s (handle401 q)).2.2.1 = 1 ∧
      (runTask envF s (handle401 q)).1.isAuthExpired = true) ∧
    refreshCalls (runPool envRefreshOk twoRefreshSched twoTaskPool).calls
      = 2 := by
  have heS : runTask envS s (handle401 q) =
      (.success .ok, ⟨⟨some a, some b⟩, s.signedIn⟩,
        [.refreshPost r, .replayCall q ("Bearer " ++ a)],
        [.setOp .token a, .setOp .refreshToken b]) := by
    simp [handle401, runTask, Store.get, Store.set, h, hS, hSr]
  have heF : runTask envF s (handle401 q) =
      (.rejected .original401, ⟨⟨none, none⟩, s.signedIn⟩, [.refreshPost r],
        [.removeOp .token, .removeOp .refreshToken]) := by
    simp [handle401, runTask, Store.get, Store.remove, h, hF]
  refine ⟨⟨?_, ?_⟩, ⟨?_, ?_⟩, by decide⟩
  · rw [heS]; simp [refreshCalls, isRefreshCall]
  · rw [heS]
  · rw [heF]; simp [refreshCalls, isRefreshCall]
  · rw [heF]; rfl

/-- Witness for amended C1 at a concrete authenticated state. -/
theorem per_request_refresh_witness :
    (refreshCalls (runTask envRefreshOk sysAuth (handle401 (.generic 0))).2.2.1
        = 1 ∧
      (runTask envRefreshOk sysAuth (handle401 (.generic 0))).1 =
        .success .ok) ∧
    (refreshCalls (runTask envRefreshFail sysAuth (handle401 (.generic 0))).2.2.1
        = 1 ∧
      (runTask envRefreshFail sysAuth (handle401 (.generic 0))).1.isAuthExpired
        = true) ∧
    refreshCalls (runPool envRefreshOk twoRefreshSched twoTaskPool).calls
      = 2 :=
  per_request_refresh envRefreshOk envRefreshFail sysAuth (.generic 0)
    "R1" "A2" "R2" rfl rfl rfl rfl

/-- Pool with an authenticated request whose 401 handler is in flight
and a concurrent `signOut`. -/
def signOutRacePool : PoolTrace :=
  initPool sysAuth [handle401 (.generic 0), signOutProc]

/-- Schedule: the 401 handler reads the refresh token and emits its
refresh call; `signOut` then runs to completion (clearing the store
and the flag); only afterwards does the refresh response arrive and
the handler resume. -/
def signOutRaceSched : List Nat :=
  [0, 0] ++ List.replicate 10 1 ++ List.replicate 8 0

/-- C3 is refuted: with a refresh in flight (after the prefix the
handler is suspended on its refresh call), a completed `signOut` does
clear the store, but when the refresh then resolves it re-populates
the token store with the new pair and replays its request, which
succeeds — the store does not end cleared and the attached request
does not fail with AuthExpired. -/
theorem signOut_race_counterexample :
    (runPool envRefreshOk [0, 0] signOutRacePool).tasks.any awaitingRefresh
      = true ∧
    (runPool envRefreshOk signOutRaceSched signOutRacePool).sys.store =
      ⟨some "A2", some "R2"⟩ ∧
    (runPool envRefreshOk signOutRaceSched signOutRacePool).tasks.map
        taskOutcome = [some (.success .ok), some (.success .ok)] := by
  decide

/-- C3 amended: a `signOut` completed during a pending refresh clears
the token store and sets the session flag to signed-out at that
moment (the cleared, signed-out state occurs in the run's history),
but the pending refresh is not cancelled: resolving afterwards it
re-populates the token store and replays its attached request, which
can succeed; only the session flag stays signed-out, because the
interceptor never writes it. -/
theorem signOut_race_not_cancelled :
    ((runPool envRefreshOk signOutRaceSched signOutRacePool).history.any
        (fun y => y = ⟨⟨none, none⟩, false⟩)) = true ∧
    (runPool envRefreshOk signOutRaceSched signOutRacePool).sys =
      ⟨⟨some "A2", some "R2"⟩, false⟩ ∧
    (runPool envRefreshOk signOutRaceSched signOutRacePool).tasks.map
        taskOutcome = [some (.success .ok), some (.success .ok)] := by
  decide

/-- C5 is refuted on its failure branch: when the logout POST fails
with a network error, `signOut` does clear both storage keys (the
`finally` runs), but the failure is rethrown rather than ignored and
`setIsSignedIn(false)` is skipped, so the session flag ends `true`,
not Unauthenticated. -/
theorem signOut_failure_counterexample :
    (runTask envLogoutFail sysAuth signOutProc).1 = .rejected .netErr ∧
    (runTask envLogoutFail sysAuth signOutProc).2.1.store = ⟨none, none⟩ ∧
    (runTask envLogoutFail sysAuth signOutProc).2.1.signedIn = true := by
  decide

/-- C5 amended: `signOut` clears the token store unconditionally (the
`finally` in `authService.logout` removes both keys whether the POST
succeeded or failed); on logout success the session flag is set to
signed-out, but a logout network failure is rethrown to the caller and
the session flag is left unchanged on that path. -/
theorem signOut_clears_unconditionally (envO envF : Env) (s : Sys)
    (hO : ∀ a, envO (.apiCall .logoutReq a) = .ok)
    (hF : ∀ a, envF (.apiCall .logoutReq a) = .netFail) :
    runTask envO s signOutProc =
      (.success .ok, ⟨⟨none, none⟩, false⟩,
        [.apiCall .logoutReq (authHeader s.store.token)],
        [.removeOp .token, .removeOp .refreshToken]) ∧
    runTask envF s signOutProc =
      (.rejected .netErr, ⟨⟨none, none⟩, s.signedIn⟩,
        [.apiCall .logoutReq (authHeader s.store.token)],
        [.removeOp .token, .removeOp .refreshToken]) := by
  constructor <;>
    simp [signOutProc, logoutProc, apiRequest, Proc.bind, runTask,
      Store.get, Store.remove, authHeader, hO, hF]

/-- Witness for amended C5 at a concrete authenticated state. -/
theorem signOut_clears_unconditionally_witness :
    runTask envAllOk sysAuth signOutProc =
      (.success .ok, ⟨⟨none, none⟩, false⟩,
        [.apiCall .logoutReq (authHeader sysAuth.store.token)],
        [.removeOp .token, .removeOp .refreshToken]) ∧
    runTask envLogoutFail sysAuth signOutProc =
      (.rejected .netErr, ⟨⟨none, none⟩, sysAuth.signedIn⟩,
        [.apiCall .logoutReq (authHeader sysAuth.store.token)],
        [.removeOp .token, .removeOp .refreshToken]) :=
  signOut_clears_unconditionally envAllOk envLogoutFail sysAuth
    (fun _ => rfl) (fun _ => rfl)

/-- Pool consisting of one login operation starting from an empty
store. -/
def loginPool : PoolTrace :=
  initPool ⟨⟨none, none⟩, false⟩ [loginProc "alice" "pw"]

/-- C7 is refuted: login stores the two tokens with two separate
awaited writes, so at the suspension point between them the store
holds the access token without the refresh token — a state with
exactly one token present appears in the run's history and is
observable by any concurrently scheduled operation. -/
theorem tokenPair_atomicity_counterexample :
    ((runPool envLoginOk (List.replicate 8 0) loginPool).history.map
        (fun y => y.store)).any unpaired = true ∧
    ⟨some "A1", none⟩ ∈ (runPool envLoginOk (List.replicate 8 0)
        loginPool).history.map (fun y => y.store) := by
  decide

/-- C7 amended: the pair is not written atomically — between the two
storage awaits exactly one token is present and observable — but every
site that writes the pair (login success, refresh success) writes the
access token before the refresh token, and the clear site
(`authService.logout`) removes the access token first. -/
theorem tokenPair_write_order (env : Env) (s : Sys) (u p r a b a2 b2 : String)
    (q : ApiReq)
    (hL : env (.loginPost u p) = .tokens a b)
    (hR : s.store.refreshToken = some r)
    (hRf : env (.refreshPost r) = .tokens a2 b2)
    (hLo : ∀ x, env (.apiCall .logoutReq x) = .ok) :
    (runTask env s (loginProc u p)).2.2.2 =
      [.setOp .token a, .setOp .refreshToken b] ∧
    (runTask env s (handle401 q)).2.2.2 =
      [.setOp .token a2, .setOp .refreshToken b2] ∧
    (runTask env s logoutProc).2.2.2 =
      [.removeOp .token, .removeOp .refreshToken] ∧
    ((runPool envLoginOk (List.replicate 8 0) loginPool).history.map
        (fun y => y.store)).any unpaired = true := by
  refine ⟨?_, ?_, ?_, by decide⟩
  · simp [loginProc, runTask, Store.set, hL]
  · cases henv : env (.replayCall q ("Bearer " ++ a2)) <;>
      simp [handle401, runTask, Store.get, Store.set, hR, hRf, henv]
  · simp [logoutProc, apiRequest, Proc.bind, runTask, Store.get,
      Store.remove, hLo]

/-- Witness for amended C7 at concrete inputs. -/
theorem tokenPair_write_order_witness :
    (runTask envWriteOrder sysAuth (loginProc "alice" "pw")).2.2.2 =
      [.setOp .token "A1", .setOp .refreshToken "R1"] ∧
    (runTask envWriteOrder sysAuth (handle401 (.generic 0))).2.2.2 =
      [.setOp .token "A2", .setOp .refreshToken "R2"] ∧
    (runTask envWriteOrder sysAuth logoutProc).2.2.2 =
      [.removeOp .token, .removeOp .refreshToken] ∧
    ((runPool envLoginOk (List.replicate 8 0) loginPool).history.map
        (fun y => y.store)).any unpaired = true :=
  tokenPair_write_order envWriteOrder sysAuth "alice" "pw" "R1" "A1" "R1"
    "A2" "R2" (.generic 0) rfl rfl rfl (fun _ => rfl)

/-- C8: `signUp` first sends the registration request through the api
pipeline; if it fails, the error is rethrown, the shared state is
untouched (the session flag keeps its value) and no login call is ever
made; if it succeeds, execution continues exactly as the sign-in
pipeline with the same credentials (the run equals the `signIn` run
with the registration call prepended to the trace). -/
theorem signUp_register_then_signIn (envF envS : Env) (s : Sys)
    (u p : String)
    (hF : ∀ x, envF (.apiCall .register x) = .netFail)
    (hS : ∀ x, envS (.apiCall .register x) = .ok) :
    runTask envF s (signUpProc u p) =
      (.rejected .netErr, s,
        [.apiCall .register (authHeader s.store.token)], []) ∧
    ((runTask envF s (signUpProc u p)).2.2.1.any isLoginCall) = false ∧
    runTask envS s (signUpProc u p) =
      ((runTask envS s (signInProc u p)).1,
       (runTask envS s (signInProc u p)).2.1,
       .apiCall .register (authHeader s.store.token) ::
         (runTask envS s (signInProc u p)).2.2.1,
       (runTask envS s (signInProc u p)).2.2.2) := by
  have heF : runTask envF s (signUpProc u p) =
      (.rejected .netErr, s,
        [.apiCall .register (authHeader s.store.token)], []) := by
    simp [signUpProc, apiRequest, Proc.bind, runTask, Store.get,
      authHeader, hF]
  refine ⟨heF, ?_, ?_⟩
  · rw [heF]; simp [isLoginCall]
  · simp [signUpProc, apiRequest, Proc.bind, runTask, Store.get,
      authHeader, hS]

/-- Witness for C8 at a concrete state and credentials. -/
theorem signUp_register_then_signIn_witness :
    runTask envRegisterFail sysAuth (signUpProc "alice" "pw") =
      (.rejected .netErr, sysAuth,
        [.apiCall .register (authHeader sysAuth.store.token)], []) ∧
    ((runTask envRegisterFail sysAuth (signUpProc "alice" "pw")).2.2.1.any
        isLoginCall) = false ∧
    runTask envAllOk sysAuth (signUpProc "alice" "pw") =
      ((runTask envAllOk sysAuth (signInProc "alice" "pw")).1,
       (runTask envAllOk sysAuth (signInProc "alice" "pw")).2.1,
       .apiCall .register (authHeader sysAuth.store.token) ::
         (runTask envAllOk sysAuth (signInProc "alice" "pw")).2.2.1,
       (runTask envAllOk sysAuth (signInProc "alice" "pw")).2.2.2) :=
  signUp_register_then_signIn envRegisterFail envAllOk sysAuth "alice" "pw"
    (fun _ => rfl) (fun _ => rfl)

/-- Transport for which login succeeds, the profile fetch returns 401
and the refresh call also returns 401. -/
def envProfile401RefreshFail : Env := fun r =>
  match r with
  | .loginPost _ _ => .tokens "A1" "R1"
  | .apiCall .profileGet _ => .err401
  | .refreshPost _ => .err401
  | _ => .ok

/-- C9 is refuted on its storage conjunct: when login succeeds but the
profile fetch fails with a 401 and the ensuing refresh also fails, the
interceptor's catch block removes both keys before the error reaches
`signIn`'s catch — `signIn` rejects, but the pair written by login
does not remain in storage and the bootstrap check sees no session. -/
theorem signIn_profile401_clears_counterexample :
    (runTask envProfile401RefreshFail ⟨⟨none, none⟩, false⟩
        (signInProc "alice" "pw")).1 = .rejected .original401 ∧
    (runTask envProfile401RefreshFail ⟨⟨none, none⟩, false⟩
        (signInProc "alice" "pw")).2.1.store = ⟨none, none⟩ ∧
    isAuthenticatedCheck
      (runTask envProfile401RefreshFail ⟨⟨none, none⟩, false⟩
        (signInProc "alice" "pw")).2.1.store = false := by
  decide

/-- C9 amended: when login succeeds (the token pair is written) but
the subsequent profile fetch fails, `signIn` rejects with that error
and the session flag is unchanged (it stays signed-out).  Whether the
stored pair survives depends on the failure: on a network error the
pair written by login remains and the bootstrap check observes a
stored session, but on a profile-fetch 401 whose refresh also fails
the interceptor clears both keys, the store ends empty and the
bootstrap check observes no session. -/
theorem signIn_profileFailure_cases (envN env4 : Env) (s : Sys)
    (u p a b : String)
    (hL : envN (.loginPost u p) = .tokens a b)
    (hP : ∀ x, envN (.apiCall .profileGet x) = .netFail)
    (hL4 : env4 (.loginPost u p) = .tokens a b)
    (hP4 : ∀ x, env4 (.apiCall .profileGet x) = .err401)
    (hR4 : env4 (.refreshPost b) = .err401) :
    runTask envN s (signInProc u p) =
      (.rejected .netErr, ⟨⟨some a, some b⟩, s.signedIn⟩,
        [.loginPost u p, .apiCall .profileGet (some ("Bearer " ++ a))],
        [.setOp .token a, .setOp .refreshToken b]) ∧
    isAuthenticatedCheck (runTask envN s (signInProc u p)).2.1.store
      = true ∧
    runTask env4 s (signInProc u p) =
      (.rejected .original401, ⟨⟨none, none⟩, s.signedIn⟩,
        [.loginPost u p, .apiCall .profileGet (some ("Bearer " ++ a)),
          .refreshPost b],
        [.setOp .token a, .setOp .refreshToken b, .removeOp .token,
          .removeOp .refreshToken]) ∧
    isAuthenticatedCheck (runTask env4 s (signInProc u p)).2.1.store
      = false := by
  have heN : runTask envN s (signInProc u p) =
      (.rejected .netErr, ⟨⟨some a, some b⟩, s.signedIn⟩,
        [.loginPost u p, .apiCall .profileGet (some ("Bearer " ++ a))],
        [.setOp .token a, .setOp .refreshToken b]) := by
    simp [signInProc, loginProc, apiRequest, Proc.bind, runTask,
      Store.get, Store.set, authHeader, hL, hP]
  have he4 : runTask env4 s (signInProc u p) =
      (.rejected .original401, ⟨⟨none, none⟩, s.signedIn⟩,
        [.loginPost u p, .apiCall .profileGet (some ("Bearer " ++ a)),
          .refreshPost b],
        [.setOp .token a, .setOp .refreshToken b, .removeOp .token,
          .removeOp .refreshToken]) := by
    simp [signInProc, loginProc, apiRequest, handle401, Proc.bind,
      runTask, Store.get, Store.set, Store.remove, authHeader,
      hL4, hP4, hR4]
  exact ⟨heN, by rw [heN]; rfl, he4, by rw [he4]; rfl⟩

/-- Witness for amended C9: login succeeds from a signed-out empty
state; in one transport the profile fetch fails with a network error,
in the other it returns 401 and the refresh also fails. -/
theorem signIn_profileFailure_cases_witness :
    runTask envProfileFail ⟨⟨none, none⟩, false⟩ (signInProc "alice" "pw") =
      (.rejected .netErr, ⟨⟨some "A1", some "R1"⟩, false⟩,
        [.loginPost "alice" "pw",
          .apiCall .profileGet (some ("Bearer " ++ "A1"))],
        [.setOp .token "A1", .setOp .refreshToken "R1"]) ∧
    isAuthenticatedCheck
      (runTask envProfileFail ⟨⟨none, none⟩, false⟩
        (signInProc "alice" "pw")).2.1.store = true ∧
    runTask envProfile401RefreshFail ⟨⟨none, none⟩, false⟩
        (signInProc "alice" "pw") =
      (.rejected .original401, ⟨⟨none, none⟩, false⟩,
        [.loginPost "alice" "pw",
          .apiCall .profileGet (some ("Bearer " ++ "A1")),
          .refreshPost "R1"],
        [.setOp .token "A1", .setOp .refreshToken "R1", .removeOp .token,
          .removeOp .refreshToken]) ∧
    isAuthenticatedCheck
      (runTask envProfile401RefreshFail ⟨⟨none, none⟩, false⟩
        (signInProc "alice" "pw")).2.1.store = false :=
  signIn_profileFailure_cases envProfileFail envProfile401RefreshFail
    ⟨⟨none, none⟩, false⟩ "alice" "pw" "A1" "R1" rfl (fun _ => rfl) rfl
    (fun _ => rfl) rfl

/-- C10: registration is dispatched through the `api` instance, so
when an access token is stored at dispatch time the registration call
carries the `Bearer` header with it, and a 401 response to
registration continues exactly as `handle401` — the same token-refresh
handling as any authenticated request. -/
theorem register_goes_through_api (env : Env) (s : Sys) (t : String)
    (hT : s.store.token = some t)
    (h401 : env (.apiCall .register (some ("Bearer " ++ t))) = .err401) :
    runTask env s (apiRequest .register) =
      ((runTask env s (handle401 .register)).1,
       (runTask env s (handle401 .register)).2.1,
       .apiCall .register (some ("Bearer " ++ t)) ::
         (runTask env s (handle401 .register)).2.2.1,
       (runTask env s (handle401 .register)).2.2.2) := by
  simp [apiRequest, runTask, Store.get, authHeader, hT, h401]

/-- Witness for C10: a registration 401 at a concrete authenticated
state, with a refresh-capable transport. -/
theorem register_goes_through_api_witness :
    runTask envRegister401 sysAuth (apiRequest .register) =
      ((runTask envRegister401 sysAuth (handle401 .register)).1,
       (runTask envRegister401 sysAuth (handle401 .register)).2.1,
       .apiCall .register (some ("Bearer " ++ "A1")) ::
         (runTask envRegister401 sysAuth (handle401 .register)).2.2.1,
       (runTask envRegister401 sysAuth (handle401 .register)).2.2.2) :=
  register_goes_through_api envRegister401 sysAuth "A1" rfl rfl
